import Mathlib

/-!
Verification of the img10 temporary image hosting service (shallow embedding).

The embedding follows `src/app/core/database.py`, `src/app/core/utils.py`,
`src/app/core/constants.py`, `src/app/core/config.py` and
`src/app/api/routes.py`.  Pure computations are translated to Lean functions;
the SQLite metadata store is a `List ImageRec`, the filesystem a
`List String` of existing paths, and environment effects (thumbnail encoder
success, per-path unlink failures) are explicit boolean parameters.
-/

namespace Img10

/-! ## Constants (src/app/core/constants.py and config.py) -/

def MAX_FILE_SIZE : Nat := 10 * 1024 * 1024

def TIMEOUT_HOURS : Nat := 24

def JPEG_FORMAT : String := "JPEG"

def PNG_FORMAT : String := "PNG"

def ERROR_IMAGE_FILES_ONLY : String := "Only image files are accepted"

def ERROR_IMAGE_NOT_FOUND : String := "Image not found"

def ERROR_IMAGE_EXPIRED : String := "Image has expired"

def ERROR_IMAGE_FILE_NOT_FOUND : String := "Image file not found"

/-! ## UTC timestamps

`datetime.now(UTC)` values are modelled as seconds + microseconds since the
Unix epoch.  `created_at` is stored in SQLite as the string
`datetime.isoformat()` (separator "T", suffix "+00:00", fractional part
omitted when the microsecond field is zero); when a `datetime` object is
bound as a query parameter, sqlite3's default adapter renders it with
`isoformat(" ")` — a space separator.  Both renderings are reproduced
below, because `cleanup_old_images` compares the stored TEXT against the
adapter-rendered cutoff lexicographically inside SQLite. -/

structure UTCTime where
  sec : Nat
  usec : Nat
  deriving DecidableEq, Repr

/-- Comparison of two timezone-aware datetimes (Python datetime `<`). -/
def utcLt (a b : UTCTime) : Bool :=
  a.sec < b.sec || (a.sec == b.sec && a.usec < b.usec)

/-- `now - timedelta(hours=24)` for post-1970 instants. -/
def minusTimeout (t : UTCTime) : UTCTime :=
  { sec := t.sec - TIMEOUT_HOURS * 3600, usec := t.usec }

/-- Gregorian calendar date for a day count since 1970-01-01
(standard civil-from-days conversion, valid for nonnegative day counts). -/
def civilFromDays (z0 : Nat) : Nat × Nat × Nat :=
  let z := z0 + 719468
  let era := z / 146097
  let doe := z % 146097
  let yoe := (doe - doe / 1460 + doe / 36524 - doe / 146097) / 365
  let y := yoe + era * 400
  let doy := doe - (365 * yoe + yoe / 4 - yoe / 100)
  let mp := (5 * doy + 2) / 153
  let d := doy - (153 * mp + 2) / 5 + 1
  let m := if mp < 10 then mp + 3 else mp - 9
  (if m ≤ 2 then y + 1 else y, m, d)

def pad2 (n : Nat) : String :=
  if n < 10 then "0" ++ toString n else toString n

def pad4 (n : Nat) : String :=
  if n < 10 then "000" ++ toString n
  else if n < 100 then "00" ++ toString n
  else if n < 1000 then "0" ++ toString n
  else toString n

def pad6 (n : Nat) : String :=
  if n < 10 then "00000" ++ toString n
  else if n < 100 then "0000" ++ toString n
  else if n < 1000 then "000" ++ toString n
  else if n < 10000 then "00" ++ toString n
  else if n < 100000 then "0" ++ toString n
  else toString n

/-- Python `datetime.isoformat(sep)` for a UTC-aware datetime: the
fractional seconds appear only when the microsecond field is nonzero, and
the UTC offset renders as "+00:00". -/
def isoformatSep (sep : String) (t : UTCTime) : String :=
  let days := t.sec / 86400
  let sod := t.sec % 86400
  let ymd := civilFromDays days
  let frac := if t.usec = 0 then "" else "." ++ pad6 t.usec
  pad4 ymd.1 ++ "-" ++ pad2 ymd.2.1 ++ "-" ++ pad2 ymd.2.2 ++ sep ++
    pad2 (sod / 3600) ++ ":" ++ pad2 (sod % 3600 / 60) ++ ":" ++
    pad2 (sod % 60) ++ frac ++ "+00:00"

/-- Byte-wise (memcmp) lexicographic order on character lists, as SQLite's
BINARY collation compares TEXT values. -/
def bytesLt : List Char → List Char → Bool
  | [], [] => false
  | [], _ :: _ => true
  | _ :: _, [] => false
  | a :: as, b :: bs =>
    if a < b then true else if b < a then false else bytesLt as bs

def strLt (s t : String) : Bool :=
  bytesLt s.data t.data

/-- ASCII lowercasing of one character.  Python's `str.lower` agrees with
this on every comparison against the ASCII literals "jpg"/"jpeg"/"png"
made below: the only non-ASCII codepoint whose Python lowercase is an
ASCII letter is the Kelvin sign (to "k"), which occurs in none of those
literals. -/
def lowerChar (c : Char) : Char :=
  if 'A' ≤ c ∧ c ≤ 'Z' then Char.ofNat (c.toNat + 32) else c

/-- Python `str.lower` (see `lowerChar`). -/
def strLower (s : String) : String :=
  ⟨s.data.map lowerChar⟩

def listStartsWith : List Char → List Char → Bool
  | _, [] => true
  | [], _ :: _ => false
  | a :: as, b :: bs => a == b && listStartsWith as bs

/-- Python `str.startswith`. -/
def strStartsWith (s p : String) : Bool :=
  listStartsWith s.data p.data

/-! ## Data model -/

/-- A row of the `images` table (src/app/core/models.py `ImageData`);
`created_at` is kept as a `UTCTime`, standing for the TEXT value
`isoformatSep "T" created_at` written by `add_image` and parsed back by
`get_image` via `datetime.fromisoformat`. -/
structure ImageRec where
  id : String
  mime_type : String
  file_path : String
  thumbnail_path : String
  created_at : UTCTime
  deriving DecidableEq, Repr

/-- `SELECT * FROM images WHERE id = ?` followed by `fetchone`. -/
def get_image (db : List ImageRec) (image_id : String) : Option ImageRec :=
  db.find? (fun r => r.id == image_id)

def image_exists (db : List ImageRec) (image_id : String) : Bool :=
  (get_image db image_id).isSome

/-! ## Expiry predicates

Serve-time check (routes.py `serve_image` / `serve_thumbnail`):
`image_data.created_at < datetime.now(UTC) - timedelta(hours=TIMEOUT_HOURS)`
— a comparison of parsed datetime values.

Cleanup selection (database.py `cleanup_old_images`):
`SELECT ... WHERE created_at < ?` with the `cutoff_time` datetime bound as
a parameter.  sqlite3's default datetime adapter renders the parameter as
`cutoff_time.isoformat(" ")` (space separator); the stored column holds
`isoformat()` strings (separator "T"); neither converts to a number under
the column's NUMERIC affinity, so SQLite compares the two TEXT values with
its BINARY collation, i.e. bytewise. -/

/-- Serve-time rejection predicate at clock reading `now`. -/
def serveExpired (created now : UTCTime) : Bool :=
  utcLt created (minusTimeout now)

/-- Cleanup selection predicate at clock reading `now`: the SQLite string
comparison performed by `cleanup_old_images`. -/
def cleanupSelects (created now : UTCTime) : Bool :=
  strLt (isoformatSep "T" created) (isoformatSep " " (minusTimeout now))

/-! ## cleanup_old_images (database.py)

File unlinks are `Path.unlink(missing_ok=True)`: a missing file is not an
error; `unlinkFails p = true` models the unlink of path `p` raising
`OSError`/`PermissionError`.  Per row, the original is unlinked, then the
thumbnail, then `removed_count += 1`; a raise inside the row's try block
skips the increment and moves on.  Afterwards a single DELETE removes every
selected row from the table regardless of the unlink outcomes. -/

def cleanup_old_images (db : List ImageRec) (unlinkFails : String → Bool)
    (now : UTCTime) : Nat × List ImageRec :=
  let old_images := db.filter (fun r => cleanupSelects r.created_at now)
  let removed_count :=
    (old_images.filter
      (fun r => !(unlinkFails r.file_path || unlinkFails r.thumbnail_path))).length
  let db2 := db.filter (fun r => !cleanupSelects r.created_at now)
  (removed_count, db2)

/-! ## Upload pipeline (routes.py)

An uploaded byte buffer is abstracted by its length and by what
`PIL.Image.open` makes of it: `decodesTo = none` when PIL raises
(undecodable bytes), `decodesTo = some fmt` when PIL yields `img.format =
fmt` (e.g. "JPEG", "PNG", "GIF").  The client-declared content type is an
`Option String` (`None` when the part has no content type).  The uploaded
filename is never consulted by the code and so does not appear here. -/

structure Content where
  size : Nat
  decodesTo : Option String
  deriving DecidableEq, Repr

/-- The HTTP 400 rejections `upload_image` can raise, plus the unhandled
propagation of a thumbnail-encoder exception.  `tooLarge` carries
`len(content)`, which the code formats into the detail message as
megabytes to one decimal; `invalidImage` is the detail "Invalid image
file". -/
inductive UploadReject where
  | notImage
  | tooLarge (observed : Nat)
  | invalidImage
  | thumbnailFailed
  deriving DecidableEq, Repr

/-- routes.py `_validate_file_type`: rejects a missing or empty content
type and anything not starting with "image/". -/
def validate_file_type (content_type : Option String) :
    Except UploadReject Unit :=
  match content_type with
  | none => .error .notImage
  | some s =>
    if s == "" || !strStartsWith s "image/" then .error .notImage else .ok ()

/-- routes.py `_validate_file_size`. -/
def validate_file_size (content : Content) : Except UploadReject Unit :=
  if content.size > MAX_FILE_SIZE then .error (.tooLarge content.size)
  else .ok ()

/-- routes.py `_validate_image_format`.  The whole body sits inside
`try: ... except Exception: raise HTTPException(400, "Invalid image file")`.
`PIL.Image.open` raising maps to the except branch; and the
`_raise_unsupported_format_error()` call for a decodable but disallowed
format raises an `HTTPException` *inside* the try, which the broad
`except Exception` also catches and rewraps — so both paths surface the
same "Invalid image file" rejection.  The trailing ".jpg" fallback of the
source is unreachable and kept as written. -/
def validate_image_format (content : Content) : Except UploadReject String :=
  match content.decodesTo with
  | none => .error .invalidImage
  | some fmt =>
    if fmt ≠ JPEG_FORMAT ∧ fmt ≠ PNG_FORMAT then .error .invalidImage
    else if fmt = JPEG_FORMAT then .ok ".jpg"
    else if fmt = PNG_FORMAT then .ok ".png"
    else .ok ".jpg"

instance {ε α : Type} [DecidableEq ε] [DecidableEq α] :
    DecidableEq (Except ε α)
  | .error a, .error b =>
    if h : a = b then .isTrue (by rw [h]) else .isFalse (by simp [h])
  | .error _, .ok _ => .isFalse (by simp)
  | .ok _, .error _ => .isFalse (by simp)
  | .ok a, .ok b =>
    if h : a = b then .isTrue (by rw [h]) else .isFalse (by simp [h])

/-- Python `file.content_type or "image/jpeg"`. -/
def contentTypeOrDefault (content_type : Option String) : String :=
  match content_type with
  | none => "image/jpeg"
  | some s => if s == "" then "image/jpeg" else s

/-- Whether the bytes decode to a format in the allow-list {JPEG, PNG}. -/
def decodableAllowed (c : Content) : Bool :=
  match c.decodesTo with
  | none => false
  | some fmt => fmt == JPEG_FORMAT || fmt == PNG_FORMAT

/-- Metadata store plus filesystem (the set of existing paths). -/
structure SysState where
  db : List ImageRec
  fs : List String
  deriving DecidableEq, Repr

/-- routes.py `upload_image`, after multipart parsing.  `image_id` stands
for the id produced by the `generate_secure_id` retry loop (its only
guarantee being freshness, checked where a claim needs it); `thumbOk`
models whether `create_thumbnail` succeeds or raises.  Steps in source
order: type check, read, size check, format check, write original, create
thumbnail, insert metadata row stamped `datetime.now(UTC)`.  A thumbnail
exception propagates out of the handler with the original file already
written and never removed. -/
def upload_image (st : SysState) (content_type : Option String)
    (content : Content) (image_id : String) (thumbOk : Bool)
    (now : UTCTime) : (Except UploadReject ImageRec) × SysState :=
  match validate_file_type content_type with
  | .error e => (.error e, st)
  | .ok _ =>
    match validate_file_size content with
    | .error e => (.error e, st)
    | .ok _ =>
      match validate_image_format content with
      | .error e => (.error e, st)
      | .ok file_extension =>
        let image_path := "uploads/" ++ image_id ++ file_extension
        let fs1 := image_path :: st.fs
        let thumbnail_path := "thumbnails/" ++ image_id ++ ".jpg"
        if thumbOk then
          let record : ImageRec :=
            { id := image_id
              mime_type := contentTypeOrDefault content_type
              file_path := image_path
              thumbnail_path := thumbnail_path
              created_at := now }
          (.ok record, { db := st.db ++ [record], fs := thumbnail_path :: fs1 })
        else
          (.error .thumbnailFailed, { db := st.db, fs := fs1 })

/-! ## Serve endpoints (routes.py) -/

/-- Outward HTTP result: an `HTTPException(status, detail)` or a
`FileResponse(path, media_type)`. -/
inductive HTTPResult where
  | err (status : Nat) (detail : String)
  | file (path : String) (mediaType : String)
  deriving DecidableEq, Repr

def HTTPResult.status : HTTPResult → Nat
  | .err s _ => s
  | .file _ _ => 200

/-- routes.py `serve_image` (`GET /{image_id}.{extension}`): extension
allow-list check (case-insensitive, before any database access), lookup,
expiry check, backing-file check, then the file response with the record's
stored path and mime type. -/
def serve_image (db : List ImageRec) (fs : List String)
    (image_id extension : String) (now : UTCTime) : HTTPResult :=
  if !(strLower extension == "jpg" || strLower extension == "jpeg" ||
      strLower extension == "png") then
    .err 404 "Invalid file extension"
  else
    match get_image db image_id with
    | none => .err 404 ERROR_IMAGE_NOT_FOUND
    | some image_data =>
      if utcLt image_data.created_at (minusTimeout now) then
        .err 404 ERROR_IMAGE_EXPIRED
      else if !(fs.contains image_data.file_path) then
        .err 404 ERROR_IMAGE_FILE_NOT_FOUND
      else
        .file image_data.file_path image_data.mime_type

/-- routes.py `serve_thumbnail` (`GET /t/{image_id}.jpg`). -/
def serve_thumbnail (db : List ImageRec) (fs : List String)
    (image_id : String) (now : UTCTime) : HTTPResult :=
  match get_image db image_id with
  | none => .err 404 "Thumbnail not found"
  | some image_data =>
    if utcLt image_data.created_at (minusTimeout now) then
      .err 404 ERROR_IMAGE_EXPIRED
    else if !(fs.contains image_data.thumbnail_path) then
      .err 404 "Thumbnail file not found"
    else
      .file image_data.thumbnail_path "image/jpeg"

/-! ## Helper lemmas -/

lemma filter_not_filter_self {α : Type} (p : α → Bool) (l : List α) :
    (l.filter (fun a => !p a)).filter p = [] := by
  induction l with
  | nil => rfl
  | cons a l ih => cases h : p a <;> simp [List.filter_cons, h, ih]

lemma filter_not_idem {α : Type} (p : α → Bool) (l : List α) :
    (l.filter (fun a => !p a)).filter (fun a => !p a) =
      l.filter (fun a => !p a) := by
  induction l with
  | nil => rfl
  | cons a l ih => cases h : p a <;> simp [List.filter_cons, h, ih]

lemma validate_image_format_notAllowed (c : Content)
    (h : decodableAllowed c = false) :
    validate_image_format c = .error .invalidImage := by
  cases hc : c.decodesTo with
  | none => simp [validate_image_format, hc]
  | some fmt =>
    rw [decodableAllowed, hc] at h
    simp only [Bool.or_eq_false_iff, beq_eq_false_iff_ne, ne_eq] at h
    simp [validate_image_format, hc, h.1, h.2]

lemma validate_file_size_ok (c : Content) (h : c.size ≤ MAX_FILE_SIZE) :
    validate_file_size c = .ok () := by
  simp [validate_file_size, Nat.not_lt.mpr h]

lemma validate_image_format_ok (c : Content) (ext : String)
    (h : validate_image_format c = .ok ext) :
    (c.decodesTo = some JPEG_FORMAT ∧ ext = ".jpg") ∨
    (c.decodesTo = some PNG_FORMAT ∧ ext = ".png") := by
  cases hc : c.decodesTo with
  | none => simp [validate_image_format, hc] at h
  | some fmt =>
    rw [validate_image_format, hc] at h
    by_cases h1 : fmt = JPEG_FORMAT
    · subst h1
      simp [JPEG_FORMAT] at h
      exact Or.inl ⟨rfl, h.symm⟩
    · by_cases h2 : fmt = PNG_FORMAT
      · subst h2
        simp [JPEG_FORMAT, PNG_FORMAT] at h
        exact Or.inr ⟨rfl, h.symm⟩
      · simp [h1, h2] at h

/-! ## Claims -/

/-- C1: the spec demands that cleanup selection and serve-time rejection
agree at every instant (`now - created_at > 24 hours` on the same UTC
clock), and the cleanup docstring says it removes images older than
`TIMEOUT_HOURS`; but cleanup compares the stored `isoformat()` TEXT (with
separator "T") against the sqlite3-adapter rendering of the cutoff
datetime (separator " ") bytewise, so an expired record created on the
same UTC calendar day as the cutoff instant is rejected by `serve_image`
yet never selected by `cleanup_old_images`.  Concretely: a record created
2020-01-02 00:30:00 UTC is 35.5 hours old at 2020-01-03 12:00:00 UTC;
serve reports it expired, cleanup removes nothing. -/
theorem C1_cleanup_misses_expired_record :
    serveExpired ⟨1577925000, 0⟩ ⟨1578052800, 0⟩ = true
    ∧ cleanupSelects ⟨1577925000, 0⟩ ⟨1578052800, 0⟩ = false
    ∧ serve_image
        [⟨"abc", "image/png", "uploads/abc.png", "thumbnails/abc.jpg",
          ⟨1577925000, 0⟩⟩] [] "abc" "jpg" ⟨1578052800, 0⟩ =
        .err 404 ERROR_IMAGE_EXPIRED
    ∧ cleanup_old_images
        [⟨"abc", "image/png", "uploads/abc.png", "thumbnails/abc.jpg",
          ⟨1577925000, 0⟩⟩] (fun _ => false) ⟨1578052800, 0⟩ =
        (0, [⟨"abc", "image/png", "uploads/abc.png", "thumbnails/abc.jpg",
          ⟨1577925000, 0⟩⟩]) := by
  decide

/-- C2 counterexample: with one expired record whose file deletions fail,
`cleanup_old_images` removes the record from metadata (one row removed)
yet returns 0, so the returned count does not equal the number of records
removed from the metadata store. -/
theorem C2_count_counterexample :
    (cleanup_old_images
      [⟨"abc", "image/png", "uploads/abc.png", "thumbnails/abc.jpg",
        ⟨1577838600, 0⟩⟩] (fun _ => true) ⟨1578052800, 0⟩).1 ≠
    ([⟨"abc", "image/png", "uploads/abc.png", "thumbnails/abc.jpg",
        ⟨1577838600, 0⟩⟩] : List ImageRec).length -
      (cleanup_old_images
        [⟨"abc", "image/png", "uploads/abc.png", "thumbnails/abc.jpg",
          ⟨1577838600, 0⟩⟩] (fun _ => true) ⟨1578052800, 0⟩).2.length := by
  decide

/-- C2 (amended): the count returned by cleanup equals the number of
selected records whose two backing-file deletions both succeeded — not the
number of records removed from metadata — while every selected record is
removed from the metadata store even when deleting its files fails. -/
theorem C2_count_and_metadata_removal (db : List ImageRec)
    (unlinkFails : String → Bool) (now : UTCTime) :
    (cleanup_old_images db unlinkFails now).1 =
      ((db.filter (fun r => cleanupSelects r.created_at now)).filter
        (fun r => !(unlinkFails r.file_path ||
          unlinkFails r.thumbnail_path))).length
    ∧ ∀ r ∈ db, cleanupSelects r.created_at now = true →
        r ∉ (cleanup_old_images db unlinkFails now).2 := by
  refine ⟨rfl, ?_⟩
  intro r _ hsel hmem
  have hkeep := (List.mem_filter.mp hmem).2
  simp [hsel] at hkeep

/-- C2 witness: a selected record with failing file deletions is gone from
the post-cleanup metadata store. -/
theorem C2_count_and_metadata_removal_witness :
    (⟨"abc", "image/png", "uploads/abc.png", "thumbnails/abc.jpg",
      ⟨1577838600, 0⟩⟩ : ImageRec) ∉
    (cleanup_old_images
      [⟨"abc", "image/png", "uploads/abc.png", "thumbnails/abc.jpg",
        ⟨1577838600, 0⟩⟩] (fun _ => true) ⟨1578052800, 0⟩).2 :=
  (C2_count_and_metadata_removal
    [⟨"abc", "image/png", "uploads/abc.png", "thumbnails/abc.jpg",
      ⟨1577838600, 0⟩⟩] (fun _ => true) ⟨1578052800, 0⟩).2
    ⟨"abc", "image/png", "uploads/abc.png", "thumbnails/abc.jpg",
      ⟨1577838600, 0⟩⟩ (by simp) (by decide)

/-- C7: cleanup is idempotent — a second run at the same instant with no
records added in between selects nothing, returns 0, and leaves the
metadata store unchanged. -/
theorem C7_cleanup_idempotent (db : List ImageRec)
    (unlinkFails : String → Bool) (now : UTCTime) :
    cleanup_old_images (cleanup_old_images db unlinkFails now).2
      unlinkFails now = (0, (cleanup_old_images db unlinkFails now).2) := by
  simp only [cleanup_old_images]
  rw [filter_not_filter_self, filter_not_idem]
  simp

/-- C3 counterexample: with a valid PNG upload whose thumbnail creation
fails, the upload aborts, but the already-written original
"uploads/abc.png" is still present in the resulting filesystem — the
claimed rollback (removal of the original) does not happen. -/
theorem C3_orphan_counterexample :
    (upload_image ⟨[], []⟩ (some "image/png") ⟨4, some "PNG"⟩ "abc" false
      ⟨0, 0⟩).1 = .error .thumbnailFailed
    ∧ "uploads/abc.png" ∈
      (upload_image ⟨[], []⟩ (some "image/png") ⟨4, some "PNG"⟩ "abc" false
        ⟨0, 0⟩).2.fs := by
  decide

/-- C3 (amended): when thumbnail creation fails after the original has
been written, the upload aborts with an error and no metadata record is
inserted, but the already-written original file is not removed — it is
left in the upload directory as a record-less orphan. -/
theorem C3_thumbnail_failure_leaves_orphan (st : SysState)
    (content_type : Option String) (content : Content) (image_id : String)
    (now : UTCTime) (ext : String)
    (hct : validate_file_type content_type = .ok ())
    (hsz : content.size ≤ MAX_FILE_SIZE)
    (hfmt : validate_image_format content = .ok ext) :
    upload_image st content_type content image_id false now =
      (.error .thumbnailFailed,
        ⟨st.db, ("uploads/" ++ image_id ++ ext) :: st.fs⟩) := by
  simp [upload_image, hct, validate_file_size_ok content hsz, hfmt]

/-- C3 witness: a concrete failed-thumbnail upload ends in the amended
state. -/
theorem C3_thumbnail_failure_leaves_orphan_witness :
    upload_image ⟨[], []⟩ (some "image/jpeg") ⟨4, some "JPEG"⟩ "xyz" false
      ⟨0, 0⟩ = (.error .thumbnailFailed, ⟨[], ["uploads/xyz.jpg"]⟩) :=
  C3_thumbnail_failure_leaves_orphan ⟨[], []⟩ (some "image/jpeg")
    ⟨4, some "JPEG"⟩ "xyz" ⟨0, 0⟩ ".jpg" (by decide) (by decide) (by decide)

/-- C4 counterexample: at the same instant and the same requested
extension, an expired record is answered with 404 "Image has expired"
while a never-stored id is answered with 404 "Image not found" — the
bodies differ, so the responses are not identical. -/
theorem C4_distinguishable_counterexample :
    serve_image
      [⟨"abc", "image/png", "uploads/abc.png", "thumbnails/abc.jpg",
        ⟨1577925000, 0⟩⟩] [] "abc" "jpg" ⟨1578052800, 0⟩ =
      .err 404 ERROR_IMAGE_EXPIRED
    ∧ serve_image [] [] "abc" "jpg" ⟨1578052800, 0⟩ =
      .err 404 ERROR_IMAGE_NOT_FOUND
    ∧ ERROR_IMAGE_EXPIRED ≠ ERROR_IMAGE_NOT_FOUND := by
  decide

/-- C4 (amended): an expired record and a never-stored id both receive
HTTP status 404, but with different bodies ("Image has expired" versus
"Image not found"), so the client can distinguish the two cases. -/
theorem C4_expired_vs_unknown_status_only (db1 db2 : List ImageRec)
    (fs1 fs2 : List String) (id1 id2 ext : String) (now : UTCTime)
    (r : ImageRec)
    (hext : strLower ext = "jpg" ∨ strLower ext = "jpeg" ∨
      strLower ext = "png")
    (h1 : get_image db1 id1 = some r)
    (hexp : utcLt r.created_at (minusTimeout now) = true)
    (h2 : get_image db2 id2 = none) :
    serve_image db1 fs1 id1 ext now = .err 404 ERROR_IMAGE_EXPIRED
    ∧ serve_image db2 fs2 id2 ext now = .err 404 ERROR_IMAGE_NOT_FOUND
    ∧ (serve_image db1 fs1 id1 ext now).status =
        (serve_image db2 fs2 id2 ext now).status
    ∧ serve_image db1 fs1 id1 ext now ≠ serve_image db2 fs2 id2 ext now := by
  have hb : (strLower ext == "jpg" || strLower ext == "jpeg" ||
      strLower ext == "png") = true := by
    rcases hext with h | h | h <;> simp [h]
  have e1 : serve_image db1 fs1 id1 ext now = .err 404 ERROR_IMAGE_EXPIRED := by
    simp [serve_image, hb, h1, hexp]
  have e2 : serve_image db2 fs2 id2 ext now =
      .err 404 ERROR_IMAGE_NOT_FOUND := by
    simp [serve_image, hb, h2]
  refine ⟨e1, e2, ?_, ?_⟩
  · rw [e1, e2]; rfl
  · rw [e1, e2]; decide

/-- C4 witness: the amended statement at a concrete expired record and a
concrete empty store. -/
theorem C4_expired_vs_unknown_status_only_witness :
    serve_image
      [⟨"abc", "image/png", "uploads/abc.png", "thumbnails/abc.jpg",
        ⟨1577925000, 0⟩⟩] [] "abc" "jpg" ⟨1578052800, 0⟩ =
      .err 404 ERROR_IMAGE_EXPIRED
    ∧ serve_image [] [] "zzz" "jpg" ⟨1578052800, 0⟩ =
      .err 404 ERROR_IMAGE_NOT_FOUND
    ∧ (serve_image
        [⟨"abc", "image/png", "uploads/abc.png", "thumbnails/abc.jpg",
          ⟨1577925000, 0⟩⟩] [] "abc" "jpg" ⟨1578052800, 0⟩).status =
        (serve_image [] [] "zzz" "jpg" ⟨1578052800, 0⟩).status
    ∧ serve_image
        [⟨"abc", "image/png", "uploads/abc.png", "thumbnails/abc.jpg",
          ⟨1577925000, 0⟩⟩] [] "abc" "jpg" ⟨1578052800, 0⟩ ≠
        serve_image [] [] "zzz" "jpg" ⟨1578052800, 0⟩ :=
  C4_expired_vs_unknown_status_only
    [⟨"abc", "image/png", "uploads/abc.png", "thumbnails/abc.jpg",
      ⟨1577925000, 0⟩⟩] [] [] [] "abc" "zzz" "jpg" ⟨1578052800, 0⟩
    ⟨"abc", "image/png", "uploads/abc.png", "thumbnails/abc.jpg",
      ⟨1577925000, 0⟩⟩ (Or.inl (by decide)) (by decide) (by decide) (by decide)

/-- C5 counterexample: declaring "image/gif" while the bytes decode as
PNG passes every validation, and the persisted record's mime_type is
"image/gif" — outside the claimed {image/jpeg, image/png} allow-list. -/
theorem C5_mime_counterexample :
    (upload_image ⟨[], []⟩ (some "image/gif") ⟨4, some "PNG"⟩ "abc" true
      ⟨0, 0⟩).1 =
      .ok ⟨"abc", "image/gif", "uploads/abc.png", "thumbnails/abc.jpg",
        ⟨0, 0⟩⟩
    ∧ "image/gif" ≠ "image/jpeg" ∧ "image/gif" ≠ "image/png" := by
  decide

/-- C5 (amended): every record persisted by a successful upload has
mime_type equal to the client-declared content type, which is only
guaranteed to start with "image/" — not to lie in {image/jpeg,
image/png}. -/
theorem C5_mime_is_declared_content_type (st : SysState)
    (content_type : Option String) (content : Content) (image_id : String)
    (thumbOk : Bool) (now : UTCTime) (r : ImageRec)
    (h : (upload_image st content_type content image_id thumbOk now).1 =
      .ok r) :
    strStartsWith r.mime_type "image/" = true
    ∧ content_type = some r.mime_type := by
  cases content_type with
  | none => simp [upload_image, validate_file_type] at h
  | some s =>
    cases hb : (s == "" || !strStartsWith s "image/") with
    | true => simp [upload_image, validate_file_type, hb] at h
    | false =>
      simp only [Bool.or_eq_false_iff, Bool.not_eq_false', beq_eq_false_iff_ne,
        ne_eq] at hb
      cases hsz : validate_file_size content with
      | error e => simp [upload_image, validate_file_type, hb, hsz] at h
      | ok u =>
        cases hfmt : validate_image_format content with
        | error e =>
          simp [upload_image, validate_file_type, hb, hsz, hfmt] at h
        | ok ext =>
          cases thumbOk with
          | false =>
            simp [upload_image, validate_file_type, hb, hsz, hfmt] at h
          | true =>
            simp [upload_image, validate_file_type, hb, hsz, hfmt] at h
            subst h
            simp [contentTypeOrDefault, hb.1, hb.2]

/-- C5 witness: the amended statement at the "image/gif" upload. -/
theorem C5_mime_is_declared_content_type_witness :
    strStartsWith
      (ImageRec.mime_type
        ⟨"abc", "image/gif", "uploads/abc.png", "thumbnails/abc.jpg",
          ⟨0, 0⟩⟩) "image/" = true
    ∧ (some "image/gif" : Option String) =
      some (ImageRec.mime_type
        ⟨"abc", "image/gif", "uploads/abc.png", "thumbnails/abc.jpg",
          ⟨0, 0⟩⟩) :=
  C5_mime_is_declared_content_type ⟨[], []⟩ (some "image/gif")
    ⟨4, some "PNG"⟩ "abc" true ⟨0, 0⟩
    ⟨"abc", "image/gif", "uploads/abc.png", "thumbnails/abc.jpg", ⟨0, 0⟩⟩
    (by decide)

/-- C6: for a byte buffer that does not decode as JPEG or PNG (including
undecodable bytes), an upload whose declared type and size pass the
earlier checks fails with the unified 400 invalid-image rejection (the
spec's UnsupportedFormat: both decode failure and a disallowed decoded
format are rewrapped into the same "Invalid image file" response), and the
metadata store and filesystem are left exactly unchanged — validation
completes before any storage mutation. -/
theorem C6_undecodable_rejected_without_mutation (st : SysState)
    (content_type : Option String) (content : Content) (image_id : String)
    (thumbOk : Bool) (now : UTCTime)
    (hct : validate_file_type content_type = .ok ())
    (hsz : content.size ≤ MAX_FILE_SIZE)
    (hfmt : decodableAllowed content = false) :
    upload_image st content_type content image_id thumbOk now =
      (.error .invalidImage, st) := by
  simp [upload_image, hct, validate_file_size_ok content hsz,
    validate_image_format_notAllowed content hfmt]

/-- C6 witness: a decodable GIF (and hence also any undecodable buffer)
is rejected with no change of state. -/
theorem C6_undecodable_rejected_without_mutation_witness :
    upload_image ⟨[], []⟩ (some "image/png") ⟨4, some "GIF"⟩ "abc" true
      ⟨0, 0⟩ = (.error .invalidImage, ⟨[], []⟩) :=
  C6_undecodable_rejected_without_mutation ⟨[], []⟩ (some "image/png")
    ⟨4, some "GIF"⟩ "abc" true ⟨0, 0⟩ (by decide) (by decide) (by decide)

/-- C8: a successful upload stores the original under an extension
derived from the verified decoded format — ".jpg" when the bytes decode
as JPEG, ".png" when they decode as PNG (no other decoded format can
succeed) — and the thumbnail path always ends in ".jpg".  The declared
content type is universally quantified and the uploaded filename is not
even an input of the pipeline, so neither influences the extension. -/
theorem C8_extension_from_decoded_format (st : SysState)
    (content_type : Option String) (content : Content) (image_id : String)
    (thumbOk : Bool) (now : UTCTime) (r : ImageRec) (st2 : SysState)
    (h : upload_image st content_type content image_id thumbOk now =
      (.ok r, st2)) :
    (content.decodesTo = some JPEG_FORMAT →
      r.file_path = "uploads/" ++ image_id ++ ".jpg")
    ∧ (content.decodesTo = some PNG_FORMAT →
      r.file_path = "uploads/" ++ image_id ++ ".png")
    ∧ (content.decodesTo = some JPEG_FORMAT ∨
      content.decodesTo = some PNG_FORMAT)
    ∧ r.thumbnail_path = "thumbnails/" ++ image_id ++ ".jpg" := by
  cases hct : validate_file_type content_type with
  | error e => simp [upload_image, hct] at h
  | ok u =>
    cases hsz : validate_file_size content with
    | error e => simp [upload_image, hct, hsz] at h
    | ok u2 =>
      cases hfmt : validate_image_format content with
      | error e => simp [upload_image, hct, hsz, hfmt] at h
      | ok ext =>
        cases thumbOk with
        | false => simp [upload_image, hct, hsz, hfmt] at h
        | true =>
          simp [upload_image, hct, hsz, hfmt] at h
          rcases validate_image_format_ok content ext hfmt with
            ⟨hdec, hext⟩ | ⟨hdec, hext⟩ <;> subst hext <;>
            rcases h with ⟨h1, h2⟩ <;> subst h1
          · exact ⟨fun _ => rfl,
              fun hp => by rw [hdec] at hp; simp [JPEG_FORMAT, PNG_FORMAT] at hp,
              Or.inl hdec, rfl⟩
          · exact ⟨fun hj => by rw [hdec] at hj; simp [JPEG_FORMAT, PNG_FORMAT] at hj,
              fun _ => rfl, Or.inr hdec, rfl⟩

/-- C8 witness: uploading PNG bytes under a declared "image/jpeg" content
type stores "uploads/<id>.png" and "thumbnails/<id>.jpg". -/
theorem C8_extension_from_decoded_format_witness :
    ((⟨4, some "PNG"⟩ : Content).decodesTo = some JPEG_FORMAT →
      ImageRec.file_path
        ⟨"abc", "image/jpeg", "uploads/abc.png", "thumbnails/abc.jpg",
          ⟨0, 0⟩⟩ = "uploads/" ++ "abc" ++ ".jpg")
    ∧ ((⟨4, some "PNG"⟩ : Content).decodesTo = some PNG_FORMAT →
      ImageRec.file_path
        ⟨"abc", "image/jpeg", "uploads/abc.png", "thumbnails/abc.jpg",
          ⟨0, 0⟩⟩ = "uploads/" ++ "abc" ++ ".png")
    ∧ ((⟨4, some "PNG"⟩ : Content).decodesTo = some JPEG_FORMAT ∨
      (⟨4, some "PNG"⟩ : Content).decodesTo = some PNG_FORMAT)
    ∧ ImageRec.thumbnail_path
        ⟨"abc", "image/jpeg", "uploads/abc.png", "thumbnails/abc.jpg",
          ⟨0, 0⟩⟩ = "thumbnails/" ++ "abc" ++ ".jpg" :=
  C8_extension_from_decoded_format ⟨[], []⟩ (some "image/jpeg")
    ⟨4, some "PNG"⟩ "abc" true ⟨0, 0⟩
    ⟨"abc", "image/jpeg", "uploads/abc.png", "thumbnails/abc.jpg", ⟨0, 0⟩⟩
    ⟨[⟨"abc", "image/jpeg", "uploads/abc.png", "thumbnails/abc.jpg",
      ⟨0, 0⟩⟩], ["thumbnails/abc.jpg", "uploads/abc.png"]⟩ (by decide)

/-- C9: once the declared content type has passed the type check, any
buffer strictly larger than 10 MiB is rejected with the too-large error
carrying the observed byte count, with the store and filesystem unchanged
and regardless of what (if anything) the bytes would decode to — i.e.
before any decode attempt; and any buffer of at most 10 MiB passes the
size check. -/
theorem C9_size_limit (st : SysState) (content_type : Option String)
    (content : Content) (image_id : String) (thumbOk : Bool)
    (now : UTCTime)
    (hct : validate_file_type content_type = .ok ()) :
    (content.size > MAX_FILE_SIZE →
      upload_image st content_type content image_id thumbOk now =
        (.error (.tooLarge content.size), st))
    ∧ (content.size ≤ MAX_FILE_SIZE →
      validate_file_size content = .ok ()) := by
  constructor
  · intro hgt
    have hsz : validate_file_size content =
        .error (.tooLarge content.size) := by
      simp [validate_file_size, hgt]
    simp [upload_image, hct, hsz]
  · intro hle
    exact validate_file_size_ok content hle

/-- C9 witness: a buffer one byte over 10 MiB, not even decodable, is
rejected with the observed size and no state change; a buffer of exactly
10 MiB passes the size check. -/
theorem C9_size_limit_witness :
    upload_image ⟨[], []⟩ (some "image/png") ⟨10485761, none⟩ "abc" true
      ⟨0, 0⟩ = (.error (.tooLarge 10485761), ⟨[], []⟩)
    ∧ validate_file_size ⟨10485760, none⟩ = .ok () :=
  ⟨(C9_size_limit ⟨[], []⟩ (some "image/png") ⟨10485761, none⟩ "abc" true
      ⟨0, 0⟩ (by decide)).1 (by decide),
   (C9_size_limit ⟨[], []⟩ (some "image/png") ⟨10485760, none⟩ "abc" true
      ⟨0, 0⟩ (by decide)).2 (by decide)⟩

/-- C10: for a live unexpired record with its backing file present, a
request with any extension whose lowercasing lies in {jpg, jpeg, png} is
answered with the record's stored original file and mime type, whatever
the stored format; and for any extension outside that set the response is
404 "Invalid file extension" for every metadata store whatsoever — the
store is never consulted. -/
theorem C10_extension_gate :
    (∀ (db : List ImageRec) (fs : List String) (image_id ext : String)
        (now : UTCTime) (r : ImageRec),
      (strLower ext = "jpg" ∨ strLower ext = "jpeg" ∨
        strLower ext = "png") →
      get_image db image_id = some r →
      utcLt r.created_at (minusTimeout now) = false →
      r.file_path ∈ fs →
      serve_image db fs image_id ext now = .file r.file_path r.mime_type)
    ∧ (∀ (db : List ImageRec) (fs : List String) (image_id ext : String)
        (now : UTCTime),
      strLower ext ≠ "jpg" → strLower ext ≠ "jpeg" → strLower ext ≠ "png" →
      serve_image db fs image_id ext now =
        .err 404 "Invalid file extension") := by
  constructor
  · intro db fs image_id ext now r hext hget hexp hfile
    have hb : (strLower ext == "jpg" || strLower ext == "jpeg" ||
        strLower ext == "png") = true := by
      rcases hext with h | h | h <;> simp [h]
    simp [serve_image, hb, hget, hexp, hfile]
  · intro db fs image_id ext now h1 h2 h3
    simp [serve_image, h1, h2, h3]

/-- C10 witness: a request for `abc.JPG` against a record stored as PNG
serves the stored PNG file; a request for `abc.gif` is answered 404
against an arbitrary store. -/
theorem C10_extension_gate_witness :
    serve_image
      [⟨"abc", "image/png", "uploads/abc.png", "thumbnails/abc.jpg",
        ⟨1578052800, 0⟩⟩] ["uploads/abc.png"] "abc" "JPG"
      ⟨1578052800, 0⟩ = .file "uploads/abc.png" "image/png"
    ∧ serve_image
      [⟨"abc", "image/png", "uploads/abc.png", "thumbnails/abc.jpg",
        ⟨1578052800, 0⟩⟩] [] "abc" "gif" ⟨1578052800, 0⟩ =
      .err 404 "Invalid file extension" :=
  ⟨C10_extension_gate.1
    [⟨"abc", "image/png", "uploads/abc.png", "thumbnails/abc.jpg",
      ⟨1578052800, 0⟩⟩] ["uploads/abc.png"] "abc" "JPG" ⟨1578052800, 0⟩
    ⟨"abc", "image/png", "uploads/abc.png", "thumbnails/abc.jpg",
      ⟨1578052800, 0⟩⟩ (Or.inl (by decide)) (by decide) (by decide)
    (by decide),
   C10_extension_gate.2
    [⟨"abc", "image/png", "uploads/abc.png", "thumbnails/abc.jpg",
      ⟨1578052800, 0⟩⟩] [] "abc" "gif" ⟨1578052800, 0⟩ (by decide)
    (by decide) (by decide)⟩

end Img10
